import Mathlib

/-!
# Verification of the multi-k8s-auth core against its specification

Shallow embedding of the Go sources of `rophy/multi-k8s-auth`:

* `internal/config` — `Config.IsAuthorizedClient`, `matchSegment`
  (whitelist matching over `strings.SplitN(entry, "/", 3)`);
* `internal/oidc` — `rewriteJWKSURL` and the JWKS-URL selection in
  `VerifierManager.getOrCreateVerifier`;
* `internal/credentials` — `Store.Get` / `Store.Set` /
  `Store.LoadFromFiles` / `Store.LoadBootstrapFromFiles`, and the
  `Renewer.renew` / `Renewer.requestNewToken` control flow;
* `internal/handler` — `TokenReviewHandler.ServeHTTP` with
  `authenticateCaller`, `extractIdentity`, `detectCluster`,
  `forwardTokenReview` and the response-writing helpers.

Go strings are modelled as `List Char`.  External collaborators
(the OIDC verifier library, outbound Kubernetes API calls, the
filesystem and the JWT payload decoder, i.e. base64url + JSON) are
modelled as explicit environment records of functions; everything the
cited Go functions themselves do — branching, error wrapping, map
updates, iteration order over configured clusters — is translated
directly from the source.
-/

namespace MultiK8sAuth


/-- Go strings, modelled as lists of characters. -/
abbrev Str := List Char

/-- Coerce a Lean string literal into the `Str` model. -/
def str (s : String) : Str := s.toList

/-! ## `strings` library functions used by the source -/

/-- Split a string at the first occurrence of the separator character:
`some (before, after)` when the separator occurs, `none` otherwise.
Helper for `splitN` (Go `strings.SplitN` with a one-character separator). -/
def splitOnce (sep : Char) : Str → Option (Str × Str)
  | [] => none
  | c :: rest =>
    if c = sep then some ([], rest)
    else
      match splitOnce sep rest with
      | none => none
      | some (pre, post) => some (c :: pre, post)

/-- Go `strings.SplitN(s, sep, n)` for a one-character separator and `n ≥ 0`:
at most `n` substrings, the last one holding the unsplit remainder. -/
def splitN (sep : Char) (s : Str) : Nat → List Str
  | 0 => []
  | 1 => [s]
  | n + 2 =>
    match splitOnce sep s with
    | none => [s]
    | some (pre, post) => pre :: splitN sep post (n + 1)

/-- Go `strings.TrimSuffix(s, suffix)`. -/
def trimSuffix (s suffix : Str) : Str :=
  if suffix <:+ s then s.take (s.length - suffix.length) else s

/-- Go `strings.TrimPrefix(s, p)`. -/
def trimPfx (s p : Str) : Str :=
  if p <+: s then s.drop p.length else s

/-! ## `internal/config`: the caller whitelist -/

/-- Model of `config.matchSegment`: a whitelist pattern segment matches a value iff
it is the wildcard `*` or equals the value literally. -/
def matchSegment (pattern value : Str) : Bool :=
  decide (pattern = str "*") || decide (pattern = value)

/-- One iteration of the loop in `Config.IsAuthorizedClient`: split the
entry with `strings.SplitN(entry, "/", 3)`; entries that do not yield
exactly three parts are skipped (`continue`); otherwise all three
segments must match. -/
def entryMatches (entry cluster ns sa : Str) : Bool :=
  match splitN '/' entry 3 with
  | [p0, p1, p2] => matchSegment p0 cluster && matchSegment p1 ns && matchSegment p2 sa
  | _ => false

/-- Model of `Config.IsAuthorizedClient`: return `true` on the first whitelist entry
that matches, `false` when the list is exhausted (deny by default). -/
def isAuthorizedClient (entries : List Str) (cluster ns sa : Str) : Bool :=
  entries.any (fun entry => entryMatches entry cluster ns sa)

/-! ## `internal/config`: cluster configuration -/

/-- Model of `config.ClusterConfig`: `ca_cert` and `token_path` are file paths;
`api_server` is empty for local clusters. -/
structure ClusterConfig where
  issuer : Str
  apiServer : Str
  caCert : Str
  tokenPath : Str
deriving DecidableEq

/-- Model of `ClusterConfig.IsRemote`: a cluster is remote iff `api_server` is set. -/
def ClusterConfig.isRemote (c : ClusterConfig) : Bool :=
  decide (c.apiServer ≠ str "")

/-! ## `internal/oidc`: JWKS URL rewriting -/

/-- The constant `pathPrefix` in `oidc.rewriteJWKSURL`. -/
def jwksPathConst : Str := str "/openid/v1/jwks"

/-- Model of `oidc.rewriteJWKSURL(jwksURL, apiServer)`: when the discovered URL
contains `/openid/v1/jwks`, replace the host with the API server
(`strings.TrimSuffix(apiServer, "/") + pathPrefix`); otherwise fall back to
the original URL. -/
def rewriteJWKSURL (jwksURL apiServer : Str) : Str :=
  if jwksPathConst <:+: jwksURL then trimSuffix apiServer (str "/") ++ jwksPathConst
  else jwksURL

/-- The JWKS-URL selection in `VerifierManager.getOrCreateVerifier`:
`jwksURL := discovery.JWKSURL`, rewritten only when `cfg.APIServer != ""`. -/
def jwksURLFor (cfg : ClusterConfig) (discovered : Str) : Str :=
  if cfg.apiServer ≠ str "" then rewriteJWKSURL discovered cfg.apiServer
  else discovered

/-! ## `internal/credentials`: the Store -/

/-- Model of `credentials.Credentials`: bearer token plus CA certificate bytes. -/
structure Credentials where
  token : Str
  caCert : Str
deriving DecidableEq

/-- The in-memory map `Store.credentials` (`map[string]*Credentials`). -/
abbrev StoreMap := List (Str × Credentials)

/-- Go map read. -/
def mapGet : StoreMap → Str → Option Credentials
  | [], _ => none
  | (k, v) :: rest, key => if k = key then some v else mapGet rest key

/-- Go map write (insert or overwrite). -/
def mapSet : StoreMap → Str → Credentials → StoreMap
  | [], key, v => [(key, v)]
  | (k, w) :: rest, key, v =>
    if k = key then (key, v) :: rest else (k, w) :: mapSet rest key v

/-- The persistence side of the Store: whether an in-cluster client exists
(`s.client != nil`) and the outcome of `saveToSecret` for a given cache
content (the Kubernetes Secret API is external, so it is an oracle). -/
structure StoreEnv where
  hasClient : Bool
  persist : StoreMap → Option Str

/-- Model of `Store.Set(ctx, cluster, creds)`: install into the in-memory map under
the write lock, then attempt `saveToSecret`; a persistence failure is
returned as an error (wrapped `persisting credentials:`) but the in-memory
update stands. -/
def storeSetOp (senv : StoreEnv) (m : StoreMap) (cluster : Str) (v : Credentials) :
    StoreMap × Option Str :=
  let m2 := mapSet m cluster v
  if senv.hasClient then
    match senv.persist m2 with
    | some e => (m2, some (str "persisting credentials: " ++ e))
    | none => (m2, none)
  else (m2, none)

/-! ## `internal/credentials`: file loading and the Renewer

Observable effects are recorded as an event trace: file reads, actual
TokenRequest API calls, `Store.Set` calls and verifier invalidations.
`checkCACertExpiration` only logs, recorded as `caCheck`. -/

inductive REvent where
  | fileRead (path : Str)
  | caCheck (cluster : Str)
  | tokenRequest (creds : Credentials)
  | storeSet (cluster : Str) (creds : Credentials)
  | invalidate (cluster : Str)
deriving DecidableEq

/-- Environment of the Renewer: clock, renewal threshold
(`Config.GetRenewalRenewBefore`), the JWT payload decoder used by
`getTokenExpiration` and `parseServiceAccountFromToken` (base64url + JSON,
abstracted as oracles on the raw token), the outcome of building a client
(`Renewer.createClient`), the remote TokenRequest API, the filesystem
(`os.ReadFile`), the Store persistence side, and whether a verifier
invalidator is wired (`r.verifier != nil`). -/
structure RenewEnv where
  now : Int
  renewBefore : Int
  tokenExp : Str → Option Int
  parseSA : Str → Except Str (Str × Str)
  createClient : Credentials → Except Str Unit
  tokenAPI : Credentials → Except Str Str
  readFile : Str → Except Str Str
  senv : StoreEnv
  hasInvalidator : Bool

/-- Model of `Store.LoadFromFiles(cluster, tokenPath, caPath)`: read both files and
unconditionally replace the entry in the in-memory map (no persistence). -/
def loadFromFiles (env : RenewEnv) (store : StoreMap) (cluster tokenPath caPath : Str) :
    StoreMap × Option Str × List REvent :=
  match env.readFile tokenPath with
  | .error e => (store, some (str "reading token file: " ++ e), [.fileRead tokenPath])
  | .ok tok =>
    match env.readFile caPath with
    | .error e =>
      (store, some (str "reading CA file: " ++ e), [.fileRead tokenPath, .fileRead caPath])
    | .ok ca =>
      (mapSet store cluster ⟨tok, ca⟩, none, [.fileRead tokenPath, .fileRead caPath])

/-- Model of `Store.LoadBootstrapFromFiles(cluster, tokenPath, caPath)`: a no-op when
the store already holds an entry for the cluster, otherwise `LoadFromFiles`. -/
def loadBootstrapFromFiles (env : RenewEnv) (store : StoreMap)
    (cluster tokenPath caPath : Str) : StoreMap × Option Str × List REvent :=
  match mapGet store cluster with
  | some _ => (store, none, [])
  | none => loadFromFiles env store cluster tokenPath caPath

/-- Model of `Renewer.requestNewToken(ctx, cluster, cfg, creds)`: parse the subject of
the current token, build a client, call the TokenRequest API, store
`{new_token, existing_ca}` via `Store.Set`, then invalidate the verifier. -/
def requestNewToken (env : RenewEnv) (cluster : Str) (store : StoreMap)
    (creds : Credentials) : StoreMap × Option Str × List REvent :=
  match env.parseSA creds.token with
  | .error e => (store, some (str "parsing token subject: " ++ e), [])
  | .ok _ =>
    match env.createClient creds with
    | .error e => (store, some (str "creating k8s client: " ++ e), [])
    | .ok _ =>
      match env.tokenAPI creds with
      | .error e => (store, some e, [.tokenRequest creds])
      | .ok newTok =>
        let newCreds : Credentials := ⟨newTok, creds.caCert⟩
        match storeSetOp env.senv store cluster newCreds with
        | (m2, some e) =>
          (m2, some (str "storing credentials: " ++ e),
            [.tokenRequest creds, .storeSet cluster newCreds])
        | (m2, none) =>
          (m2, none,
            [.tokenRequest creds, .storeSet cluster newCreds] ++
              (if env.hasInvalidator then [.invalidate cluster] else []))

/-- The body of `Renewer.renew` after current credentials are in hand:
`checkCACertExpiration` (log only), the `renew_before` skip check on the
`exp` claim of the token, then `requestNewToken` with a one-shot bootstrap-file
fallback. -/
def renewBody (env : RenewEnv) (cluster : Str) (cfg : ClusterConfig)
    (store : StoreMap) (creds : Credentials) (ev0 : List REvent) :
    StoreMap × Option Str × List REvent :=
  let ev1 := ev0 ++ [.caCheck cluster]
  let skip :=
    match env.tokenExp creds.token with
    | some exp => decide (exp - env.now > env.renewBefore)
    | none => false
  if skip then (store, none, ev1)
  else
    match requestNewToken env cluster store creds with
    | (s1, none, ev) => (s1, none, ev1 ++ ev)
    | (s1, some e, ev) =>
      if cfg.tokenPath ≠ str "" ∧ cfg.caCert ≠ str "" then
        match loadFromFiles env s1 cluster cfg.tokenPath cfg.caCert with
        | (s2, some loadErr, evL) =>
          (s2,
            some (str "requesting token: " ++ e ++
              str " (bootstrap fallback also failed: " ++ loadErr ++ str ")"),
            ev1 ++ ev ++ evL)
        | (s2, none, evL) =>
          let bcreds := (mapGet s2 cluster).getD ⟨str "", str ""⟩
          match requestNewToken env cluster s2 bcreds with
          | (s3, some retryErr, evR) =>
            (s3, some (str "requesting token with bootstrap credentials: " ++ retryErr),
              ev1 ++ ev ++ evL ++ evR)
          | (s3, none, evR) => (s3, none, ev1 ++ ev ++ evL ++ evR)
      else (s1, some (str "requesting token: " ++ e), ev1 ++ ev)

/-- Model of `Renewer.renew(ctx, cluster, cfg)`: fetch current credentials (seeding
from bootstrap files when absent), then `renewBody`. -/
def renew (env : RenewEnv) (cluster : Str) (cfg : ClusterConfig) (store : StoreMap) :
    StoreMap × Option Str × List REvent :=
  match mapGet store cluster with
  | some creds => renewBody env cluster cfg store creds []
  | none =>
    if cfg.tokenPath ≠ str "" ∧ cfg.caCert ≠ str "" then
      match loadFromFiles env store cluster cfg.tokenPath cfg.caCert with
      | (s1, some e, ev) => (s1, some (str "loading bootstrap credentials: " ++ e), ev)
      | (s1, none, ev) =>
        renewBody env cluster cfg s1 ((mapGet s1 cluster).getD ⟨str "", str ""⟩) ev
    else (store, some (str "no credentials available for cluster " ++ cluster), [])

def c5Store : StoreMap := [(str "cluster-b", ⟨str "tok5", str "ca5"⟩)]

def c5Env : RenewEnv :=
  ⟨100, 48, fun _ => some 1000, fun _ => .ok (str "ns", str "sa"),
    fun _ => .ok (), fun _ => .error (str "unused"), fun _ => .error (str "unused"),
    ⟨false, fun _ => none⟩, true⟩

def c9Env : RenewEnv :=
  ⟨0, 48, fun _ => none, fun _ => .error (str "unused"), fun _ => .ok (),
    fun _ => .error (str "unused"),
    fun p => if p = str "/var/run/b/token" then .ok (str "boot-tok") else .ok (str "boot-ca"),
    ⟨false, fun _ => none⟩, true⟩

/-! ### C6: the bootstrap fallback in `Renewer.renew` -/

def c6Creds : Credentials := ⟨str "t0", str "ca0"⟩

def c6Store : StoreMap := [(str "c", c6Creds)]

def c6Cfg : ClusterConfig := ⟨str "https://i", str "https://a", str "/ca", str "/tok"⟩

def c6Env : RenewEnv :=
  ⟨0, 48, fun _ => none, fun _ => .ok (str "ns", str "sa"), fun _ => .ok (),
    fun c => if c.token = str "tb" then .error (str "retryfail") else .error (str "origfail"),
    fun p => if p = str "/tok" then .ok (str "tb") else .ok (str "cab"),
    ⟨false, fun _ => none⟩, true⟩

/-! ## `internal/handler`: the TokenReview handler

The OIDC verifier (`TokenVerifier.Verify`) and the outbound TokenReview
call made through the per-cluster Kubernetes client (the tail of
`forwardTokenReview` together with `buildRESTConfig`) are external
collaborators, modelled as the `HandlerEnv` oracles; everything
`ServeHTTP`, `authenticateCaller`, `extractIdentity`, `detectCluster`,
`forwardTokenReview` and the response writers do themselves is translated
from the source. -/

/-- The `kubernetes.io` claim blob as consumed by `extractIdentity`:
the `namespace` claim when it is a string, and `serviceaccount.name`
when present with those types. -/
structure KClaim where
  nsVal : Option Str
  saNameVal : Option Str
deriving DecidableEq

/-- Model of `oidc.Claims` as consumed by the handler. -/
structure ClaimsH where
  kubernetes : Option KClaim
deriving DecidableEq

/-- Model of `handler.extractIdentity(claims)`: empty strings when the claim blob or
the individual fields are missing. -/
def extractIdentity (c : ClaimsH) : Str × Str :=
  match c.kubernetes with
  | none => (str "", str "")
  | some k => (k.nsVal.getD (str ""), k.saNameVal.getD (str ""))

/-- The parts of `config.Config` the handler reads: the whitelist and the
configured cluster names (`range h.config.Clusters`, in iteration order). -/
structure ConfigH where
  authorizedClients : List Str
  clusters : List Str
deriving DecidableEq

/-- Model of `authv1.UserInfo`: only the `Extra` map matters to the handler
(`nil` map and empty map are distinct in Go). -/
structure UserInfoH where
  extra : Option (List (Str × List Str))
deriving DecidableEq

structure TRStatus where
  authenticated : Bool
  error : Str
  user : UserInfoH
deriving DecidableEq

/-- Model of `authv1.TokenReview` restricted to the fields the handler touches. -/
structure TokenReviewH where
  apiVersion : Str
  kind : Str
  specToken : Str
  status : TRStatus
deriving DecidableEq

def extraLookup : List (Str × List Str) → Str → Option (List Str)
  | [], _ => none
  | (k, v) :: rest, key => if k = key then some v else extraLookup rest key

def extraInsert : List (Str × List Str) → Str → List Str → List (Str × List Str)
  | [], key, v => [(key, v)]
  | (k, w) :: rest, key, v =>
    if k = key then (key, v) :: rest else (k, w) :: extraInsert rest key v

/-- Read of a possibly-`nil` Go `Extra` map. -/
def extraGet : Option (List (Str × List Str)) → Str → Option (List Str)
  | none, _ => none
  | some m, key => extraLookup m key

/-- Model of `handler.ExtraKeyClusterName`. -/
def clusterKey : Str := str "authentication.kubernetes.io/cluster-name"

/-- External collaborators of the handler: `TokenVerifier.Verify` per
cluster, and the outbound TokenReview API call for the detected cluster. -/
structure HandlerEnv where
  verify : Str → Str → Except Str ClaimsH
  forward : Str → TokenReviewH → Except Str TokenReviewH

/-- The HTTP request as the handler sees it: `r.Header.Get("Authorization")`
(empty when absent) and the JSON-decode outcome of the body. -/
structure Request where
  authHeader : Str
  body : Except Str TokenReviewH

/-- Model of `TokenReviewHandler`: whether `h.verifier` is non-nil, and `h.config`. -/
structure Handler where
  hasVerifier : Bool
  config : Option ConfigH

/-- The response envelope written by `writeError` / `writeUnauthenticated`. -/
def envelope (msg : Str) : TokenReviewH :=
  ⟨str "authentication.k8s.io/v1", str "TokenReview", str "",
    ⟨false, msg, ⟨none⟩⟩⟩

/-- The caller-verification loop in `authenticateCaller`: first configured
cluster whose `Verify` succeeds. -/
def findCaller (env : HandlerEnv) (token : Str) : List Str → Option (Str × ClaimsH)
  | [] => none
  | c :: rest =>
    match env.verify c token with
    | .ok cl => some (c, cl)
    | .error _ => findCaller env token rest

def bearerPfx : Str := str "Bearer "

/-- Model of `TokenReviewHandler.authenticateCaller(r)`: `none` when the caller is
authorized, otherwise the `authError` (HTTP code, message). -/
def authenticateCaller (h : Handler) (cfg : ConfigH) (env : HandlerEnv) (r : Request) :
    Option (Nat × Str) :=
  if r.authHeader = str "" then some (401, str "Authorization header required")
  else if ¬ (bearerPfx <+: r.authHeader) then
    some (401, str "Authorization header must use Bearer scheme")
  else
    let callerToken := trimPfx r.authHeader bearerPfx
    if callerToken = str "" then some (401, str "bearer token is empty")
    else if h.hasVerifier = false then
      some (500, str "server not configured for authentication")
    else
      match findCaller env callerToken cfg.clusters with
      | none => some (401, str "caller token not valid for any configured cluster")
      | some (cl, claims) =>
        let id := extractIdentity claims
        if id.1 = str "" ∨ id.2 = str "" then
          some (401, str "caller token missing identity claims")
        else if isAuthorizedClient cfg.authorizedClients cl id.1 id.2 = false then
          some (403, str "caller " ++ cl ++ str "/" ++ id.1 ++ str "/" ++ id.2 ++
            str " is not authorized")
        else none

/-- Step 0 of `ServeHTTP`: caller authentication runs only when a config is
present and `authorized_clients` is non-empty. -/
def callerGate (h : Handler) (env : HandlerEnv) (r : Request) : Option (Nat × Str) :=
  match h.config with
  | none => none
  | some cfg =>
    if cfg.authorizedClients = [] then none else authenticateCaller h cfg env r

/-- Model of `TokenReviewHandler.detectCluster`: first configured cluster whose
verifier validates the token; error when none matches. -/
def detectCluster (env : HandlerEnv) (token : Str) : List Str → Except Str Str
  | [] => .error (str "token signature does not match any configured cluster")
  | c :: rest =>
    match env.verify c token with
    | .ok _ => .ok c
    | .error _ => detectCluster env token rest

/-- Model of `TokenReviewHandler.forwardTokenReview`: look up the cluster config,
make the outbound TokenReview call, then force `TypeMeta` on the result. -/
def forwardTR (env : HandlerEnv) (cfg : ConfigH) (cluster : Str) (tr : TokenReviewH) :
    Except Str TokenReviewH :=
  if cluster ∉ cfg.clusters then .error (str "cluster not found: " ++ cluster)
  else
    match env.forward cluster tr with
    | .error e => .error (str "calling TokenReview API: " ++ e)
    | .ok result =>
      .ok ⟨str "authentication.k8s.io/v1", str "TokenReview",
        result.specToken, result.status⟩

/-- Lines 91–96 of `ServeHTTP`: on an authenticated result, make the `Extra`
map when `nil` and overwrite the cluster-name key with the one-element list. -/
def annotate (tr : TokenReviewH) (cluster : Str) : TokenReviewH :=
  ⟨tr.apiVersion, tr.kind, tr.specToken,
    ⟨tr.status.authenticated, tr.status.error,
      ⟨some (extraInsert
        (match tr.status.user.extra with | none => [] | some m => m)
        clusterKey [cluster])⟩⟩⟩

/-- Model of `TokenReviewHandler.ServeHTTP`, as (HTTP status, response body).  A
response written without `WriteHeader` carries the Go default status 200. -/
def serveHTTP (h : Handler) (env : HandlerEnv) (r : Request) : Nat × TokenReviewH :=
  match callerGate h env r with
  | some (code, msg) => (code, envelope msg)
  | none =>
    match r.body with
    | .error _ => (400, envelope (str "invalid request body"))
    | .ok tr =>
      if tr.specToken = str "" then (400, envelope (str "token is required"))
      else
        match h.config with
        | none => (200, envelope (str "server not configured"))
        | some cfg =>
          if h.hasVerifier = false then (200, envelope (str "server not configured"))
          else
            match detectCluster env tr.specToken cfg.clusters with
            | .error _ =>
              (200, envelope (str "token not valid for any configured cluster"))
            | .ok cluster =>
              match forwardTR env cfg cluster tr with
              | .error e => (200, envelope (str "failed to validate token: " ++ e))
              | .ok result =>
                if result.status.authenticated then (200, annotate result cluster)
                else (200, result)

def c1Env : HandlerEnv :=
  ⟨fun _ _ => .ok ⟨some ⟨some (str "default"), some (str "app")⟩⟩,
    fun _ tr =>
      .ok ⟨tr.apiVersion, tr.kind, tr.specToken,
        ⟨true, str "", ⟨some [(clusterKey, [str "stale"])]⟩⟩⟩⟩

def c1TR : TokenReviewH := ⟨str "", str "", str "tok1", ⟨false, str "", ⟨none⟩⟩⟩

def c2Env : HandlerEnv :=
  ⟨fun _ _ => .error (str "bad signature"), fun _ tr => .ok tr⟩

def c2Req : Request :=
  ⟨str "", .ok ⟨str "", str "", str "tok2", ⟨false, str "", ⟨none⟩⟩⟩⟩

/-! ### C3: the HTTP status code determination -/

/-- Modelled from the amended claim: the post-gate status rule — an
unparseable body or an empty `spec.token` yields 400 with a TokenReview
envelope; every other outcome (server not configured, no cluster match,
forwarding failure, success) yields 200. -/
def bodyStatus (r : Request) : Nat :=
  match r.body with
  | .error _ => 400
  | .ok tr => if tr.specToken = str "" then 400 else 200

/-- Modelled from the amended claim: the full status-code determination.
When `authorized_clients` is non-empty: missing header, non-Bearer scheme or
empty bearer → 401; missing verifier → 500; a caller token verifying against
no configured cluster, or verified claims lacking identity → 401; a verified
caller not whitelisted → 403; an authorized caller (or no caller gate at
all) falls through to `bodyStatus`. -/
def statusSpec (h : Handler) (env : HandlerEnv) (r : Request) : Nat :=
  match h.config with
  | none => bodyStatus r
  | some cfg =>
    if cfg.authorizedClients = [] then bodyStatus r
    else if r.authHeader = str "" then 401
    else if ¬ (bearerPfx <+: r.authHeader) then 401
    else if trimPfx r.authHeader bearerPfx = str "" then 401
    else if h.hasVerifier = false then 500
    else
      match findCaller env (trimPfx r.authHeader bearerPfx) cfg.clusters with
      | none => 401
      | some (cl, claims) =>
        if (extractIdentity claims).1 = str "" ∨ (extractIdentity claims).2 = str "" then
          401
        else if isAuthorizedClient cfg.authorizedClients cl
            (extractIdentity claims).1 (extractIdentity claims).2 = false then 403
        else bodyStatus r

def c3Env : HandlerEnv :=
  ⟨fun _ _ => .error (str "bad signature"), fun _ tr => .ok tr⟩

def c3Req : Request :=
  ⟨str "Bearer sometok", .ok ⟨str "", str "", str "tok3", ⟨false, str "", ⟨none⟩⟩⟩⟩

def c3Cfg : ConfigH := ⟨[str "cluster-a/default/app"], [str "cluster-a"]⟩

example : isAuthorizedClient [str "cluster-a/default/my-app"] (str "cluster-a") (str "default") (str "my-app") = true := by decide

example : isAuthorizedClient [str "*/*/*"] (str "c") (str "n") (str "s") = true := by decide

example : isAuthorizedClient [str "only-two/segments"] (str "only-two") (str "segments") (str "anything") = false := by decide

example : isAuthorizedClient [] (str "c") (str "n") (str "s") = false := by decide

example : isAuthorizedClient [str "a/b/c/d"] (str "a") (str "b") (str "c/d") = true := by decide

example : isAuthorizedClient [str "a/b/*/d"] (str "a") (str "b") (str "x") = false := by decide

/-! ### Lemmas about `splitN` -/

theorem splitOnce_not_mem {sep : Char} {s : Str} (h : sep ∉ s) : splitOnce sep s = none := by
  induction s with
  | nil => rfl
  | cons c rest ih =>
    have hc : ¬(c = sep) := by rintro rfl; exact h (List.mem_cons_self _ _)
    have hr : sep ∉ rest := fun hm => h (List.mem_cons_of_mem _ hm)
    simp [splitOnce, hc, ih hr]

theorem splitOnce_append {sep : Char} {a t : Str} (h : sep ∉ a) :
    splitOnce sep (a ++ sep :: t) = some (a, t) := by
  induction a with
  | nil => simp [splitOnce]
  | cons c rest ih =>
    have hc : ¬(c = sep) := by rintro rfl; exact h (List.mem_cons_self _ _)
    have hr : sep ∉ rest := fun hm => h (List.mem_cons_of_mem _ hm)
    simp [splitOnce, hc, ih hr]

theorem splitN_two {sep : Char} {a t : Str} (h : sep ∉ a) :
    splitN sep (a ++ sep :: t) 2 = [a, t] := by
  simp [splitN, splitOnce_append h]

theorem splitN_three {sep : Char} {a t : Str} (h : sep ∉ a) :
    splitN sep (a ++ sep :: t) 3 = a :: splitN sep t 2 := by
  simp [splitN, splitOnce_append h]

theorem splitN_two_single {sep : Char} {s : Str} (h : sep ∉ s) :
    splitN sep s 2 = [s] := by
  simp [splitN, splitOnce_not_mem h]

theorem splitN_three_single {sep : Char} {s : Str} (h : sep ∉ s) :
    splitN sep s 3 = [s] := by
  simp [splitN, splitOnce_not_mem h]

/-- A string with exactly one occurrence of `sep` decomposes around it. -/
theorem count_one_decomp {sep : Char} {s : Str} (h : s.count sep = 1) :
    ∃ a b, s = a ++ sep :: b ∧ sep ∉ a ∧ sep ∉ b := by
  induction s with
  | nil => simp at h
  | cons c rest ih =>
    by_cases hc : sep = c
    · subst hc
      have h0 : rest.count sep = 0 := by
        have := List.count_cons_self sep rest
        omega
      exact ⟨[], rest, rfl, by simp, List.count_eq_zero.mp h0⟩
    · have hr : rest.count sep = 1 := by
        rw [List.count_cons] at h
        simpa [Ne.symm hc] using h
      obtain ⟨a, b, rfl, ha, hb⟩ := ih hr
      refine ⟨c :: a, b, rfl, ?_, hb⟩
      intro hm
      rcases List.mem_cons.mp hm with h1 | h1
      · exact hc h1
      · exact ha h1

/-- A pattern entry whose first two segments are slash-free: `SplitN` yields
the two segments and the entire remainder (which may itself contain slashes). -/
theorem entryMatches_three {a b c : Str} (ha : '/' ∉ a) (hb : '/' ∉ b)
    (x y z : Str) :
    entryMatches (a ++ '/' :: (b ++ '/' :: c)) x y z =
      (matchSegment a x && matchSegment b y && matchSegment c z) := by
  rw [entryMatches, splitN_three ha, splitN_two hb]

/-- A whitelist entry with fewer than three slash-separated segments (at most
one `/`) is skipped by the matcher. -/
theorem entryMatches_malformed {e : Str} (he : e.count '/' ≤ 1) (x y z : Str) :
    entryMatches e x y z = false := by
  have h01 : e.count '/' = 0 ∨ e.count '/' = 1 := by omega
  rcases h01 with h0 | h1
  · have hm : '/' ∉ e := List.count_eq_zero.mp h0
    rw [entryMatches, splitN_three_single hm]
  · obtain ⟨a, b, rfl, ha, hb⟩ := count_one_decomp h1
    rw [entryMatches, splitN_three ha, splitN_two_single hb]

theorem str_slash : str "/" = ['/'] := rfl

theorem str_star : str "*" = ['*'] := rfl

/-- C4: For every whitelist entry `p = a/b/c` whose three slash-separated
segments are each a literal or `*`, and every identity triple `(x, y, z)`,
`IsAuthorizedClient` with whitelist containing `p` returns `true` for
`(x, y, z)` iff each pattern segment equals the corresponding component or is
`*`; an entry with fewer than three segments never contributes a match, and an
empty whitelist returns `false` for every triple. -/
theorem c4_whitelist_match (a b c x y z e : Str) (rest : List Str)
    (ha : '/' ∉ a) (hb : '/' ∉ b) (hc : '/' ∉ c) (he : e.count '/' ≤ 1) :
    (isAuthorizedClient [a ++ str "/" ++ b ++ str "/" ++ c] x y z = true ↔
      ((a = str "*" ∨ a = x) ∧ (b = str "*" ∨ b = y) ∧ (c = str "*" ∨ c = z))) ∧
    isAuthorizedClient (e :: rest) x y z = isAuthorizedClient rest x y z ∧
    isAuthorizedClient [] x y z = false := by
  refine ⟨?_, ?_, rfl⟩
  · have hshape : a ++ str "/" ++ b ++ str "/" ++ c = a ++ '/' :: (b ++ '/' :: c) := by
      rw [str_slash]
      simp [List.append_assoc]
    rw [isAuthorizedClient]
    simp only [List.any_cons, List.any_nil, Bool.or_false]
    rw [hshape, entryMatches_three ha hb]
    simp [matchSegment, and_assoc]
  · simp [isAuthorizedClient, entryMatches_malformed he]

theorem c4_wit :
    (isAuthorizedClient [str "cluster-a" ++ str "/" ++ str "default" ++ str "/" ++ str "*"]
        (str "cluster-a") (str "default") (str "my-app") = true ↔
      ((str "cluster-a" = str "*" ∨ str "cluster-a" = str "cluster-a") ∧
       (str "default" = str "*" ∨ str "default" = str "default") ∧
       (str "*" = str "*" ∨ str "*" = str "my-app"))) ∧
    isAuthorizedClient (str "only-two/segments" :: [str "*/*/*"])
        (str "cluster-a") (str "default") (str "my-app") =
      isAuthorizedClient [str "*/*/*"] (str "cluster-a") (str "default") (str "my-app") ∧
    isAuthorizedClient [] (str "cluster-a") (str "default") (str "my-app") = false :=
  c4_whitelist_match (str "cluster-a") (str "default") (str "*")
    (str "cluster-a") (str "default") (str "my-app") (str "only-two/segments") [str "*/*/*"]
    (by decide) (by decide) (by decide) (by decide)

/-- C10: `IsAuthorizedClient` splits with `SplitN(entry, "/", 3)`, so an
entry `a/b/c/d` is not ignored as malformed: it matches a caller iff the
cluster and namespace segments match and the serviceaccount name equals the
literal remainder `c/d`; a wildcard before a further segment (`a/b/*/d`) is
the literal pattern `*/d` and never matches a slash-free serviceaccount name. -/
theorem c10_splitn_remainder (a b c d x y z : Str) (ha : '/' ∉ a) (hb : '/' ∉ b) :
    (isAuthorizedClient [a ++ str "/" ++ b ++ str "/" ++ c ++ str "/" ++ d] x y z = true ↔
      ((a = str "*" ∨ a = x) ∧ (b = str "*" ∨ b = y) ∧ z = c ++ str "/" ++ d)) ∧
    ('/' ∉ z →
      isAuthorizedClient [a ++ str "/" ++ b ++ str "/" ++ str "*" ++ str "/" ++ d] x y z = false) := by
  constructor
  · have hshape : a ++ str "/" ++ b ++ str "/" ++ c ++ str "/" ++ d =
        a ++ '/' :: (b ++ '/' :: (c ++ '/' :: d)) := by
      rw [str_slash]
      simp [List.append_assoc]
    rw [isAuthorizedClient]
    simp only [List.any_cons, List.any_nil, Bool.or_false]
    rw [hshape, entryMatches_three ha hb]
    have hne : c ++ '/' :: d ≠ str "*" := by
      intro h
      have hm : '/' ∈ c ++ '/' :: d := List.mem_append_right _ (List.mem_cons_self _ _)
      rw [h, str_star] at hm
      exact absurd hm (by decide)
    have hiff : (c ++ '/' :: d = z) ↔ (z = c ++ str "/" ++ d) := by
      rw [str_slash]
      constructor
      · intro h
        simp [List.append_assoc, ← h]
      · intro h
        simp [h, List.append_assoc]
    simp [matchSegment, hne, hiff, and_assoc]
  · intro hz
    have hshape : a ++ str "/" ++ b ++ str "/" ++ str "*" ++ str "/" ++ d =
        a ++ '/' :: (b ++ '/' :: ('*' :: '/' :: d)) := by
      rw [str_slash, str_star]
      simp [List.append_assoc]
    rw [isAuthorizedClient]
    simp only [List.any_cons, List.any_nil, Bool.or_false]
    rw [hshape, entryMatches_three ha hb]
    have h1 : ('*' :: '/' :: d : Str) ≠ str "*" := by
      rw [str_star]
      intro h
      have := congrArg List.length h
      simp at this
    have h2 : ('*' :: '/' :: d : Str) ≠ z := by
      intro h
      rw [← h] at hz
      exact hz (List.mem_cons_of_mem _ (List.mem_cons_self _ _))
    simp [matchSegment, h1, h2]

theorem c10_wit :
    (isAuthorizedClient [str "a" ++ str "/" ++ str "b" ++ str "/" ++ str "c" ++ str "/" ++ str "d"]
        (str "a") (str "b") (str "c/d") = true ↔
      ((str "a" = str "*" ∨ str "a" = str "a") ∧ (str "b" = str "*" ∨ str "b" = str "b") ∧
       str "c/d" = str "c" ++ str "/" ++ str "d")) ∧
    ('/' ∉ str "c/d" →
      isAuthorizedClient [str "a" ++ str "/" ++ str "b" ++ str "/" ++ str "*" ++ str "/" ++ str "d"]
        (str "a") (str "b") (str "c/d") = false) :=
  c10_splitn_remainder (str "a") (str "b") (str "c") (str "d")
    (str "a") (str "b") (str "c/d") (by decide) (by decide)

example : rewriteJWKSURL (str "https://kubernetes.default.svc/openid/v1/jwks")
    (str "https://10.0.0.1:6443/") = str "https://10.0.0.1:6443/openid/v1/jwks" := by decide

example : rewriteJWKSURL (str "https://idp.example.com/keys") (str "https://10.0.0.1:6443")
    = str "https://idp.example.com/keys" := by decide

theorem trimSuffix_append_single (b : Str) (c : Char) :
    trimSuffix (b ++ [c]) [c] = b := by
  rw [trimSuffix, if_pos (List.suffix_append b [c])]
  simp [List.take_left]

theorem trimSuffix_of_not_suffix {s suffix : Str} (h : ¬ suffix <:+ s) :
    trimSuffix s suffix = s := by
  rw [trimSuffix, if_neg h]

/-- C8: For every remote cluster (`api_server` non-empty) and discovered
`jwks_uri`: if it contains `/openid/v1/jwks`, the JWKS URL used is
`api_server` with any trailing slash trimmed followed by `/openid/v1/jwks`;
otherwise the discovery-advertised URL is kept.  For clusters with empty
`api_server` no rewrite is applied. -/
theorem c8_jwks_rewrite (cfg : ClusterConfig) (dU : Str) :
    (cfg.apiServer ≠ str "" →
      (jwksPathConst <:+: dU →
        ((¬ (str "/" <:+ cfg.apiServer) →
            jwksURLFor cfg dU = cfg.apiServer ++ str "/openid/v1/jwks") ∧
         (∀ b, cfg.apiServer = b ++ str "/" →
            jwksURLFor cfg dU = b ++ str "/openid/v1/jwks"))) ∧
      (¬ (jwksPathConst <:+: dU) → jwksURLFor cfg dU = dU)) ∧
    (cfg.apiServer = str "" → jwksURLFor cfg dU = dU) := by
  refine ⟨fun hne => ⟨fun hin => ⟨fun hnosl => ?_, fun b hb => ?_⟩, fun hnin => ?_⟩,
    fun heq => ?_⟩
  · rw [jwksURLFor, if_pos hne, rewriteJWKSURL, if_pos hin,
      trimSuffix_of_not_suffix (by rwa [str_slash] at hnosl)]
    rfl
  · rw [jwksURLFor, if_pos hne, rewriteJWKSURL, if_pos hin, hb, str_slash,
      trimSuffix_append_single]
    rfl
  · rw [jwksURLFor, if_pos hne, rewriteJWKSURL, if_neg hnin]
  · rw [jwksURLFor, if_neg (by simp [heq])]

theorem c8_wit :
    jwksURLFor ⟨str "https://kubernetes.default.svc", str "https://10.0.0.1:6443/",
        str "", str ""⟩ (str "https://kubernetes.default.svc/openid/v1/jwks")
      = str "https://10.0.0.1:6443" ++ str "/openid/v1/jwks" :=
  (c8_jwks_rewrite
      ⟨str "https://kubernetes.default.svc", str "https://10.0.0.1:6443/", str "", str ""⟩
      (str "https://kubernetes.default.svc/openid/v1/jwks")).1
    (by decide) |>.1 (by decide) |>.2 (str "https://10.0.0.1:6443") (by decide)

theorem mapGet_mapSet_self (m : StoreMap) (key : Str) (v : Credentials) :
    mapGet (mapSet m key v) key = some v := by
  induction m with
  | nil => simp [mapGet, mapSet]
  | cons kv rest ih =>
    obtain ⟨k, w⟩ := kv
    by_cases hk : k = key
    · simp [mapGet, mapSet, hk]
    · simp [mapGet, mapSet, hk, ih]

/-- C7: After `Store.Set(ctx, C, v)` returns — whether with `nil` or a
persistence error — `Store.Get(C)` returns `(v, true)`: the in-memory entry
is installed before persistence is attempted and a persistence failure never
rolls it back. -/
theorem c7_set_get (senv : StoreEnv) (m : StoreMap) (cluster : Str) (v : Credentials) :
    mapGet (storeSetOp senv m cluster v).1 cluster = some v := by
  rw [storeSetOp]
  by_cases hc : senv.hasClient
  · simp only [hc, if_true]
    cases senv.persist (mapSet m cluster v) <;>
      simpa using mapGet_mapSet_self m cluster v
  · simp only [hc, if_false, Bool.false_eq_true]
    simpa using mapGet_mapSet_self m cluster v

/-- C5: On a renewal tick for a cluster whose stored token has an `exp` claim
that decodes successfully, if `exp - now > renew_before` then `renew` returns
`nil` without calling the TokenRequest API, without calling `Store.Set`, and
without invalidating any verifier; the Store credentials are unchanged
(only the purely informational CA-expiry log check runs). -/
theorem c5_renewal_skip (env : RenewEnv) (cluster : Str) (cfg : ClusterConfig)
    (store : StoreMap) (creds : Credentials) (exp : Int)
    (hget : mapGet store cluster = some creds)
    (hexp : env.tokenExp creds.token = some exp)
    (hskip : exp - env.now > env.renewBefore) :
    renew env cluster cfg store = (store, none, [REvent.caCheck cluster]) := by
  simp [renew, hget, renewBody, hexp, hskip]

theorem c5_wit :
    renew c5Env (str "cluster-b") ⟨str "https://b", str "https://b:6443", str "", str ""⟩
      c5Store = (c5Store, none, [REvent.caCheck (str "cluster-b")]) :=
  c5_renewal_skip c5Env (str "cluster-b") ⟨str "https://b", str "https://b:6443", str "", str ""⟩
    c5Store ⟨str "tok5", str "ca5"⟩ 1000 (by decide) rfl (by decide)

/-- C9: When the Store already holds an entry for the cluster,
`LoadBootstrapFromFiles` returns `nil` without reading either file and
leaves the credential map unchanged; when no entry exists it behaves exactly
as `LoadFromFiles`, which reads both files and unconditionally replaces the
entry. -/
theorem c9_bootstrap_preserve (env : RenewEnv) (store : StoreMap)
    (cluster tokenPath caPath : Str) :
    (∀ v, mapGet store cluster = some v →
      loadBootstrapFromFiles env store cluster tokenPath caPath = (store, none, [])) ∧
    (mapGet store cluster = none →
      loadBootstrapFromFiles env store cluster tokenPath caPath =
        loadFromFiles env store cluster tokenPath caPath) ∧
    (∀ tok ca, env.readFile tokenPath = .ok tok → env.readFile caPath = .ok ca →
      loadFromFiles env store cluster tokenPath caPath =
        (mapSet store cluster ⟨tok, ca⟩, none,
          [REvent.fileRead tokenPath, REvent.fileRead caPath])) := by
  refine ⟨fun v hv => ?_, fun hn => ?_, fun tok ca htok hca => ?_⟩
  · simp [loadBootstrapFromFiles, hv]
  · simp [loadBootstrapFromFiles, hn]
  · simp [loadFromFiles, htok, hca]

theorem c9_wit :
    loadBootstrapFromFiles c9Env [(str "cluster-b", ⟨str "renewed", str "ca"⟩)]
      (str "cluster-b") (str "/var/run/b/token") (str "/var/run/b/ca.crt") =
      ([(str "cluster-b", ⟨str "renewed", str "ca"⟩)], none, []) :=
  (c9_bootstrap_preserve c9Env [(str "cluster-b", ⟨str "renewed", str "ca"⟩)]
      (str "cluster-b") (str "/var/run/b/token") (str "/var/run/b/ca.crt")).1
    ⟨str "renewed", str "ca"⟩ (by decide)

/-- C6 (counterexample to the claim as stated): With bootstrap files
configured, a first `requestNewToken` failure (`origfail`) and a failing
retry (`retryfail`), `renew` returns an error wrapping the *retry* error;
the original error text does not occur in the returned error at all, so the
claim "if the retry also fails, renew returns the original error" is false. -/
theorem c6_cex :
    requestNewToken c6Env (str "c") c6Store c6Creds =
      (c6Store, some (str "origfail"), [REvent.tokenRequest c6Creds]) ∧
    c6Cfg.tokenPath ≠ str "" ∧ c6Cfg.caCert ≠ str "" ∧
    (renew c6Env (str "c") c6Cfg c6Store).2.1 =
      some (str "requesting token with bootstrap credentials: retryfail") ∧
    ¬ (str "origfail" <:+:
        str "requesting token with bootstrap credentials: retryfail") := by
  refine ⟨by decide, by decide, by decide, by decide, by decide⟩

/-- C6 (amended): If `requestNewToken` with the current credentials fails
and both `token_path` and `ca_cert` are configured, the renewer re-reads the
bootstrap files into the Store (overwriting the in-memory credentials) and
retries `requestNewToken` exactly once; if the retry also fails, `renew`
returns an error wrapping the *retry* error (`requesting token with
bootstrap credentials: <retryErr>`), not the original; if `token_path` or
`ca_cert` is not configured, `renew` returns the original error (wrapped as
`requesting token: <err>`) with no retry. -/
theorem c6_bootstrap_fallback (env : RenewEnv) (cluster : Str) (cfg : ClusterConfig)
    (store s1 : StoreMap) (creds : Credentials) (e1 : Str) (ev : List REvent)
    (hget : mapGet store cluster = some creds)
    (hnoskip : env.tokenExp creds.token = none ∨
      ∃ exp, env.tokenExp creds.token = some exp ∧ exp - env.now ≤ env.renewBefore)
    (hfail : requestNewToken env cluster store creds = (s1, some e1, ev)) :
    ((cfg.tokenPath = str "" ∨ cfg.caCert = str "") →
      renew env cluster cfg store =
        (s1, some (str "requesting token: " ++ e1), REvent.caCheck cluster :: ev)) ∧
    (cfg.tokenPath ≠ str "" → cfg.caCert ≠ str "" →
      ∀ s2 evL, loadFromFiles env s1 cluster cfg.tokenPath cfg.caCert = (s2, none, evL) →
      ∀ bcreds, mapGet s2 cluster = some bcreds →
        renew env cluster cfg store =
          (match requestNewToken env cluster s2 bcreds with
           | (s3, some e2, evR) =>
             (s3, some (str "requesting token with bootstrap credentials: " ++ e2),
               REvent.caCheck cluster :: (ev ++ evL ++ evR))
           | (s3, none, evR) =>
             (s3, none, REvent.caCheck cluster :: (ev ++ evL ++ evR)))) := by
  have hskipF : (match env.tokenExp creds.token with
      | some exp => decide (exp - env.now > env.renewBefore)
      | none => false) = false := by
    rcases hnoskip with h | ⟨exp, hx, hle⟩
    · rw [h]
    · rw [hx]
      simp
      omega
  constructor
  · intro hnc
    have hcond : ¬ (cfg.tokenPath ≠ str "" ∧ cfg.caCert ≠ str "") := by tauto
    simp [renew, hget, renewBody, hskipF, hfail, hcond]
  · intro ht hcz s2 evL hload bcreds hbc
    have hcond : cfg.tokenPath ≠ str "" ∧ cfg.caCert ≠ str "" := ⟨ht, hcz⟩
    rcases hR : requestNewToken env cluster s2 bcreds with ⟨s3, r3, evR⟩
    cases r3 with
    | some e2 =>
      simp [renew, hget, renewBody, hskipF, hfail, hcond, hload, hbc, hR]
    | none =>
      simp [renew, hget, renewBody, hskipF, hfail, hcond, hload, hbc, hR]

theorem c6_wit :
    renew c6Env (str "c") c6Cfg c6Store =
      ([(str "c", (⟨str "tb", str "cab"⟩ : Credentials))],
        some (str "requesting token with bootstrap credentials: retryfail"),
        [REvent.caCheck (str "c"), REvent.tokenRequest c6Creds,
          REvent.fileRead (str "/tok"), REvent.fileRead (str "/ca"),
          REvent.tokenRequest ⟨str "tb", str "cab"⟩]) :=
  (c6_bootstrap_fallback c6Env (str "c") c6Cfg c6Store c6Store c6Creds
      (str "origfail") [REvent.tokenRequest c6Creds]
      (by decide) (Or.inl rfl) (by decide)).2
    (by decide) (by decide)
    [(str "c", (⟨str "tb", str "cab"⟩ : Credentials))]
    [REvent.fileRead (str "/tok"), REvent.fileRead (str "/ca")]
    (by decide) ⟨str "tb", str "cab"⟩ (by decide)

theorem extraLookup_insert_self (m : List (Str × List Str)) (key : Str) (v : List Str) :
    extraLookup (extraInsert m key v) key = some v := by
  induction m with
  | nil => simp [extraLookup, extraInsert]
  | cons kv rest ih =>
    obtain ⟨k, w⟩ := kv
    by_cases hk : k = key
    · simp [extraLookup, extraInsert, hk]
    · simp [extraLookup, extraInsert, hk, ih]

/-- C1: For every TokenReview request that reaches the forwarding step:
when the forwarded response is authenticated, the response returned to the
caller carries `status.user.extra["authentication.kubernetes.io/cluster-name"]`
equal to exactly the one-element list `[cluster]` for the cluster returned by
`detectCluster`, regardless of what the forwarded response already held under
that key; when it is not authenticated, the extra map is returned unmodified. -/
theorem c1_cluster_name_extra (h : Handler) (env : HandlerEnv) (r : Request)
    (cfg : ConfigH) (tr result : TokenReviewH) (cluster : Str)
    (hgate : callerGate h env r = none)
    (hbody : r.body = .ok tr)
    (htok : tr.specToken ≠ str "")
    (hcfg : h.config = some cfg)
    (hv : h.hasVerifier = true)
    (hdet : detectCluster env tr.specToken cfg.clusters = .ok cluster)
    (hfwd : forwardTR env cfg cluster tr = .ok result) :
    (result.status.authenticated = true →
      extraGet (serveHTTP h env r).2.status.user.extra clusterKey = some [cluster]) ∧
    (result.status.authenticated = false →
      (serveHTTP h env r).2.status.user.extra = result.status.user.extra) := by
  have hserve : serveHTTP h env r =
      (200, if result.status.authenticated then annotate result cluster else result) := by
    simp only [serveHTTP, hgate, hbody, htok, hcfg, hv, hdet, hfwd]
    simp [htok]
    split <;> rfl
  constructor
  · intro hauth
    rw [hserve]
    simp [hauth, annotate, extraGet, extraLookup_insert_self]
  · intro hauth
    rw [hserve]
    simp [hauth]

theorem c1_wit :
    extraGet (serveHTTP ⟨true, some ⟨[], [str "cluster-b"]⟩⟩ c1Env
        ⟨str "", .ok c1TR⟩).2.status.user.extra clusterKey = some [str "cluster-b"] :=
  (c1_cluster_name_extra ⟨true, some ⟨[], [str "cluster-b"]⟩⟩ c1Env ⟨str "", .ok c1TR⟩
      ⟨[], [str "cluster-b"]⟩ c1TR
      ⟨str "authentication.k8s.io/v1", str "TokenReview", str "tok1",
        ⟨true, str "", ⟨some [(clusterKey, [str "stale"])]⟩⟩⟩
      (str "cluster-b") rfl rfl (by decide) rfl rfl rfl rfl).1 rfl

/-! ### C2: no configured cluster matches the token -/

theorem detectCluster_all_fail {env : HandlerEnv} {token : Str} {cs : List Str}
    (hall : ∀ c ∈ cs, ∃ e, env.verify c token = .error e) :
    detectCluster env token cs =
      .error (str "token signature does not match any configured cluster") := by
  induction cs with
  | nil => rfl
  | cons c rest ih =>
    obtain ⟨e, he⟩ := hall c (List.mem_cons_self _ _)
    rw [detectCluster, he]
    exact ih fun x hx => hall x (List.mem_cons_of_mem _ hx)

/-- C2 (counterexample to the claim as stated): When `Verify` fails for
every configured cluster, the handler responds 200 with
`authenticated=false`, but `status.error` is the message written by the handler itself,
`token not valid for any configured cluster` — not the error of `detectCluster`,
`token signature does not match any configured cluster`, which is only
logged. -/
theorem c2_cex :
    (serveHTTP ⟨true, some ⟨[], [str "cluster-a"]⟩⟩ c2Env c2Req).1 = 200 ∧
    (serveHTTP ⟨true, some ⟨[], [str "cluster-a"]⟩⟩ c2Env c2Req).2.status.authenticated
      = false ∧
    (serveHTTP ⟨true, some ⟨[], [str "cluster-a"]⟩⟩ c2Env c2Req).2.status.error =
      str "token not valid for any configured cluster" ∧
    ¬ ((serveHTTP ⟨true, some ⟨[], [str "cluster-a"]⟩⟩ c2Env c2Req).2.status.error =
      str "token signature does not match any configured cluster") := by
  refine ⟨by decide, by decide, by decide, by decide⟩

/-- C2 (amended): If `ServeHTTP` reaches cluster detection and `Verify`
errors for every configured cluster, the handler responds 200 with a
TokenReview envelope whose `status.authenticated` is `false` and whose
`status.error` equals `token not valid for any configured cluster`
(the message of `detectCluster`, `token signature does not match any
configured cluster`, is only logged). -/
theorem c2_no_cluster_match (h : Handler) (env : HandlerEnv) (r : Request)
    (cfg : ConfigH) (tr : TokenReviewH)
    (hgate : callerGate h env r = none)
    (hbody : r.body = .ok tr)
    (htok : tr.specToken ≠ str "")
    (hcfg : h.config = some cfg)
    (hv : h.hasVerifier = true)
    (hall : ∀ c ∈ cfg.clusters, ∃ e, env.verify c tr.specToken = .error e) :
    serveHTTP h env r =
      (200, envelope (str "token not valid for any configured cluster")) ∧
    (envelope (str "token not valid for any configured cluster")).status.authenticated
      = false ∧
    (envelope (str "token not valid for any configured cluster")).status.error =
      str "token not valid for any configured cluster" := by
  refine ⟨?_, rfl, rfl⟩
  simp [serveHTTP, hgate, hbody, htok, hcfg, hv, detectCluster_all_fail hall]

theorem c2_wit :
    serveHTTP ⟨true, some ⟨[], [str "cluster-a"]⟩⟩ c2Env c2Req =
      (200, envelope (str "token not valid for any configured cluster")) :=
  (c2_no_cluster_match ⟨true, some ⟨[], [str "cluster-a"]⟩⟩ c2Env c2Req
      ⟨[], [str "cluster-a"]⟩ ⟨str "", str "", str "tok2", ⟨false, str "", ⟨none⟩⟩⟩
      rfl rfl (by decide) rfl rfl
      (fun c _ => ⟨str "bad signature", rfl⟩)).1

theorem serveHTTP_gate_none_status (h : Handler) (env : HandlerEnv) (r : Request)
    (hgate : callerGate h env r = none) :
    (serveHTTP h env r).1 = bodyStatus r := by
  rw [serveHTTP, hgate]
  rcases hb : r.body with e | tr
  · simp [bodyStatus, hb]
  · simp only [bodyStatus, hb]
    by_cases ht : tr.specToken = str ""
    · simp [ht]
    · simp only [if_neg ht]
      cases hc : h.config with
      | none => rfl
      | some cfg =>
        cases hvf : h.hasVerifier with
        | false => rfl
        | true =>
          rcases hd : detectCluster env tr.specToken cfg.clusters with e2 | cl
          · simp [hd]
          · rcases hf : forwardTR env cfg cl tr with e3 | result
            · simp [hd, hf]
            · by_cases ha : result.status.authenticated <;> simp [hd, hf, ha]

theorem statusSpec_eq_gate (h : Handler) (env : HandlerEnv) (r : Request) :
    statusSpec h env r =
      (match callerGate h env r with
       | some (code, _) => code
       | none => bodyStatus r) := by
  rw [statusSpec, callerGate]
  cases hc : h.config with
  | none => rfl
  | some cfg =>
    dsimp only
    by_cases hac : cfg.authorizedClients = []
    · simp [hac]
    · rw [if_neg hac, if_neg hac, authenticateCaller]
      by_cases h1 : r.authHeader = str ""
      · simp [h1]
      · rw [if_neg h1, if_neg h1]
        by_cases h2 : bearerPfx <+: r.authHeader
        · rw [if_neg (not_not_intro h2), if_neg (not_not_intro h2)]
          by_cases h3 : trimPfx r.authHeader bearerPfx = str ""
          · simp [h3]
          · simp only [if_neg h3]
            cases hvf : h.hasVerifier with
            | false => simp
            | true =>
              simp only [Bool.true_eq_false, if_false]
              rcases hf : findCaller env (trimPfx r.authHeader bearerPfx) cfg.clusters
                with _ | ⟨cl, claims⟩
              · simp [hf]
              · simp only [hf]
                by_cases h4 : (extractIdentity claims).1 = str "" ∨
                    (extractIdentity claims).2 = str ""
                · simp [h4]
                · simp only [if_neg h4]
                  by_cases h5 : isAuthorizedClient cfg.authorizedClients cl
                      (extractIdentity claims).1 (extractIdentity claims).2 = false
                  · simp [h5]
                  · simp [h5]
        · simp [h2]

/-- C3 (amended): The HTTP status code of every request equals the
determination rule `statusSpec`: with `authorized_clients` non-empty, a
missing Authorization header, non-Bearer scheme or empty bearer token yields
401, an absent verifier yields 500, a caller token that verifies against no
configured cluster or lacks identity claims yields 401, and a verified
caller not in the whitelist yields 403; an unparseable body or empty
`spec.token` yields 400; every other outcome — server not configured, no
cluster match, forwarding failure, or success — yields 200. -/
theorem c3_status_determination (h : Handler) (env : HandlerEnv) (r : Request) :
    (serveHTTP h env r).1 = statusSpec h env r := by
  rw [statusSpec_eq_gate]
  cases hg : callerGate h env r with
  | none => exact serveHTTP_gate_none_status h env r hg
  | some cm =>
    obtain ⟨code, msg⟩ := cm
    rw [serveHTTP, hg]

/-- C3 (counterexample to the claim as stated): With a non-empty
whitelist, a well-formed non-empty Bearer header, a parseable body and a
non-empty `spec.token`, none of the 401/403/400 conditions of the claim applies
(the caller token verifies against no cluster, so the 403 clause cannot
fire either), yet the handler responds 401 — not the 200 required by the
sweep of the claim over every other outcome. -/
theorem c3_cex :
    c3Cfg.authorizedClients ≠ [] ∧
    c3Req.authHeader ≠ str "" ∧
    (bearerPfx <+: c3Req.authHeader) ∧
    trimPfx c3Req.authHeader bearerPfx ≠ str "" ∧
    c3Req.body = .ok ⟨str "", str "", str "tok3", ⟨false, str "", ⟨none⟩⟩⟩ ∧
    (str "tok3" : Str) ≠ str "" ∧
    findCaller c3Env (trimPfx c3Req.authHeader bearerPfx) c3Cfg.clusters = none ∧
    (serveHTTP ⟨true, some c3Cfg⟩ c3Env c3Req).1 = 401 ∧
    ¬ ((serveHTTP ⟨true, some c3Cfg⟩ c3Env c3Req).1 = 200) := by
  refine ⟨by decide, by decide, by decide, by decide, rfl, by decide, by decide,
    by decide, by decide⟩

end MultiK8sAuth
